import Mathlib

/-!
Formal model of the resumable-download engine in src/YoutubeDownload.py.

The embedding translates the retry loop (download_with_retries, lines
74-129), the exhaustion escalation (handle_download_failure, lines
132-142), the rendition sort (list_available_streams, lines 44-64), the
orchestration (download_video, lines 181-228) and the cleanup logic of
main (lines 251-268) into executable Lean definitions.  Network traffic,
wall-clock timing and user input are supplied as explicit scripts; file
and process state are threaded explicitly.
-/

/-- Python exception values relevant to the program.  The constructors
systemExit and keyboardInterrupt model BaseException subclasses that an
"except Exception" clause does not catch; every other constructor models
an Exception subclass. -/
inductive PyExc
  | connectionError
  | timeout
  | indexError
  | valueError
  | nameError
  | typeError
  | osError
  | keyboardInterrupt
  | systemExit (code : Nat)
  | other (msg : String)
deriving DecidableEq, Repr

/-- Whether the exception is an instance of Exception (as opposed to a
bare BaseException such as SystemExit or KeyboardInterrupt), i.e. whether
a Python "except Exception" handler catches it. -/
def PyExc.isException : PyExc → Bool
  | .systemExit _ => false
  | .keyboardInterrupt => false
  | _ => true

/-- Python's str.split with an explicit separator, on the character list
of the string: one more piece than there are separator occurrences, and
the empty string splits to one empty piece. -/
def splitOnChar (c : Char) : List Char → List (List Char)
  | [] => [[]]
  | x :: xs =>
      match splitOnChar c xs with
      | [] => if x = c then [[], []] else [[x]]
      | y :: ys => if x = c then [] :: y :: ys else (x :: y) :: ys

/-- Decimal digit test on a character. -/
def isDig (c : Char) : Bool := 48 ≤ c.toNat && c.toNat ≤ 57

/-- Value of a nonempty all-digit character list, accumulated left to
right; none as soon as a non-digit appears. -/
def digitsVal (acc : Nat) : List Char → Option Nat
  | [] => some acc
  | c :: cs => if isDig c then digitsVal (acc * 10 + (c.toNat - 48)) cs else none

/-- Spaces removed from both ends (the whitespace Python's int tolerates
and str.strip removes; the strings this program handles contain no other
whitespace). -/
def stripSpaces (s : List Char) : List Char :=
  ((s.dropWhile (fun c => c = ' ')).reverse.dropWhile (fun c => c = ' ')).reverse

/-- Python's int() on a string: surrounding whitespace tolerated, an
optional sign, then at least one decimal digit; none models the
ValueError raised on anything else. -/
def pyInt (s : List Char) : Option Int :=
  match stripSpaces s with
  | [] => none
  | '-' :: cs =>
      match cs with
      | [] => none
      | _ => (digitsVal 0 cs).map (fun n => -(n : Int))
  | '+' :: cs =>
      match cs with
      | [] => none
      | _ => (digitsVal 0 cs).map (fun n => (n : Int))
  | cs => (digitsVal 0 cs).map (fun n => (n : Int))

/-- Line 95 of the source:
int(response.headers.get('content-range', f'bytes {file_size}-0').split('/')[1]).
The header value (or, when the header is absent, the default string
"bytes <file_size>-0") is split on '/', the piece at index 1 is taken
(raising IndexError when there is no '/'), and parsed as an integer
(raising ValueError when it is not a numeral). -/
def content_range_total (hdr : Option String) (fileSize : Nat) : Except PyExc Int :=
  let s := hdr.getD ("bytes " ++ toString fileSize ++ "-0")
  match (splitOnChar '/' s.data)[1]? with
  | none => .error .indexError
  | some t =>
      match pyInt t with
      | none => .error .valueError
      | some n => .ok n

/-- The streamed response body: either all chunks arrive, or an exception
is raised mid-stream after some bytes were already flushed to disk.
Chunk boundaries (1 KiB in the source) do not affect the on-disk result,
so the body is modelled as the flat list of bytes delivered. -/
inductive Body
  | complete (bytes : List Nat)
  | interrupted (bytes : List Nat) (e : PyExc)
deriving DecidableEq, Repr

/-- What the network does for one call of requests.get: either a response
with a status code, an optional content-range header and a body stream,
or an exception raised by the call itself (before any response). -/
inductive NetResult
  | ok (status : Nat) (contentRange : Option String) (body : Body)
  | raised (e : PyExc)
deriving DecidableEq, Repr

/-- One scripted attempt: the network behaviour, plus the wall-clock
seconds elapsed from the start_time recorded at the top of the attempt
(line 80) to the moment line 117 evaluates time.time() - start_time,
i.e. after the failure was detected and the backoff sleep completed. -/
structure Attempt where
  net : NetResult
  elapsed : Nat
deriving DecidableEq, Repr

/-- The two catching handlers of the retry loop: line 109 catches
requests.ConnectionError and requests.Timeout, line 121 catches every
other Exception. -/
inductive FailClass
  | connLike
  | generic
deriving DecidableEq, Repr

/-- Which handler of download_with_retries catches the exception; none
when neither does (BaseException) and the exception propagates. -/
def failClassOf : PyExc → Option FailClass
  | .connectionError => some .connLike
  | .timeout => some .connLike
  | .systemExit _ => none
  | .keyboardInterrupt => none
  | _ => some .generic

/-- Terminal outcomes of one invocation of download_with_retries.
completed, alreadyComplete and serverRejects are the three plain returns
(lines 90, 94, 108); exhausted is falling out of the while loop into
handle_download_failure (line 128); escaped means an exception propagated
out of the function; scriptEnded is a model artifact marking that the
finite attempt script ran out while the loop would have continued. -/
inductive RetryResult
  | completed
  | alreadyComplete
  | serverRejects
  | exhausted
  | escaped (e : PyExc)
  | scriptEnded
deriving DecidableEq, Repr

/-- Per-destination-file state: the bytes on disk (none = the file does
not exist) and, as instrumentation, the list of Range offsets the loop
requested for this file, in order. -/
structure FileState where
  file : Option (List Nat)
  offsets : List Nat
deriving DecidableEq, Repr

/-- Process-global state: whether the module-global progress_bar name is
bound (it is unbound until line 97 first runs in the process), plus
instrumentation counting calls of requests.get, executions of the reset
branch at lines 118-120, and executions of time.sleep. -/
structure Globals where
  pbBound : Bool
  requests : Nat
  resets : Nat
  sleeps : Nat
deriving DecidableEq, Repr

/-- The three keyword parameters of download_with_retries: max_attempts,
wait_time (its configured base value) and reset_interval. -/
structure LoopConfig where
  maxAttempts : Nat
  baseWait : Nat
  resetInterval : Nat
deriving DecidableEq, Repr

/-- Effect of one iteration of the try block (lines 80-108): out is
either a caught failure class (Sum.inl, control passes to a handler) or a
terminal result returned or propagated (Sum.inr); written is what got
appended to the file, opened whether the append-mode open on line 98 ran,
pbAfter whether progress_bar is bound afterwards. -/
structure AttemptEffect where
  out : FailClass ⊕ RetryResult
  written : List Nat
  opened : Bool
  pbAfter : Bool
deriving DecidableEq, Repr

/-- What one iteration of the try block (lines 80-108) does, given the
current file size and whether progress_bar is bound.

Mirrors the source order: the 416 check (line 88) and the not-in-[206,200]
check (line 92) precede the content-range parse (line 95), which precedes
the creation of the progress bar (line 97) and the append-mode open
(line 98).  An exception caught by a handler whose first statement
progress_bar.close() (line 111 or 123) runs while progress_bar is unbound
turns into a NameError that no handler catches; a BaseException is caught
by neither handler and propagates as raised. -/
def attemptEval (pb : Bool) (fsLen : Nat) : NetResult → AttemptEffect
  | .raised e =>
      match failClassOf e with
      | none => ⟨Sum.inr (.escaped e), [], false, pb⟩
      | some c =>
          if pb then ⟨Sum.inl c, [], false, pb⟩
          else ⟨Sum.inr (.escaped .nameError), [], false, pb⟩
  | .ok status hdr body =>
      if status = 416 then ⟨Sum.inr .alreadyComplete, [], false, pb⟩
      else if status = 206 ∨ status = 200 then
        match content_range_total hdr fsLen with
        | .error _ =>
            if pb then ⟨Sum.inl .generic, [], false, pb⟩
            else ⟨Sum.inr (.escaped .nameError), [], false, pb⟩
        | .ok _ =>
            match body with
            | .complete bs => ⟨Sum.inr .completed, bs, true, true⟩
            | .interrupted bs e =>
                match failClassOf e with
                | none => ⟨Sum.inr (.escaped e), bs, true, true⟩
                | some c => ⟨Sum.inl c, bs, true, true⟩
      else ⟨Sum.inr .serverRejects, [], false, pb⟩

/-- One full loop iteration of download_with_retries once the guard has
passed: the try block (lines 80-108) followed, on a caught failure, by
the matching handler (lines 109-127).  Returns either Sum.inl with a
terminal result or Sum.inr with the updated (attempt, total_attempts,
wait_time) locals for the next iteration, together with the updated file
and global state.  On a connection-class failure that does not exhaust
the budget the handler sleeps and, when the elapsed time of the failed
attempt exceeds reset_interval, sets attempt to 0 and wait_time to the
literal 5 (line 120) while total_attempts keeps its incremented value; a
generic-exception failure sleeps without the reset check and without
incrementing attempt. -/
def loopStep (cfg : LoopConfig) (a : Attempt) (attempt total wait : Nat)
    (fs : FileState) (g : Globals) :
    (RetryResult ⊕ Nat × Nat × Nat) × FileState × Globals :=
  let fsLen := (fs.file.getD []).length
  let eff := attemptEval g.pbBound fsLen a.net
  let fs1 : FileState :=
    { file := if eff.opened then some (fs.file.getD [] ++ eff.written) else fs.file
    , offsets := fs.offsets ++ [fsLen] }
  let g1 : Globals :=
    { pbBound := eff.pbAfter, requests := g.requests + 1
    , resets := g.resets, sleeps := g.sleeps }
  match eff.out with
  | Sum.inr r => (Sum.inl r, fs1, g1)
  | Sum.inl .connLike =>
      if total + 1 < cfg.maxAttempts then
        if a.elapsed > cfg.resetInterval then
          (Sum.inr (0, total + 1, 5), fs1,
           { g1 with sleeps := g1.sleeps + 1, resets := g1.resets + 1 })
        else
          (Sum.inr (attempt + 1, total + 1, wait), fs1,
           { g1 with sleeps := g1.sleeps + 1 })
      else (Sum.inr (attempt + 1, total + 1, wait), fs1, g1)
  | Sum.inl .generic =>
      if total + 1 < cfg.maxAttempts then
        (Sum.inr (attempt, total + 1, wait), fs1, { g1 with sleeps := g1.sleeps + 1 })
      else (Sum.inr (attempt, total + 1, wait), fs1, g1)

/-- The while loop of download_with_retries (lines 78-127).  Arguments
after the script mirror the Python locals attempt, total_attempts and
wait_time.  The loop guard total_attempts < max_attempts is checked
before every attempt; each passing iteration is one loopStep. -/
def runAttempts (cfg : LoopConfig) :
    List Attempt → Nat → Nat → Nat → FileState → Globals → RetryResult × FileState × Globals
  | [], _attempt, total, _wait, fs, g =>
      if total < cfg.maxAttempts then (.scriptEnded, fs, g) else (.exhausted, fs, g)
  | a :: rest, attempt, total, wait, fs, g =>
      if total < cfg.maxAttempts then
        match loopStep cfg a attempt total wait fs g with
        | (Sum.inl r, fs1, g1) => (r, fs1, g1)
        | (Sum.inr (a1, t1, w1), fs1, g1) => runAttempts cfg rest a1 t1 w1 fs1 g1
      else (.exhausted, fs, g)

/-- One call of download_with_retries(url, output_path, filename,
max_attempts, wait_time, reset_interval): both local counters start at 0
and the running wait time starts at the configured wait_time. -/
def download_with_retries (maxAttempts waitTime resetInterval : Nat)
    (fs : FileState) (g : Globals) (script : List Attempt) :
    RetryResult × FileState × Globals :=
  runAttempts ⟨maxAttempts, waitTime, resetInterval⟩ script 0 0 waitTime fs g

/-- What a call of download_with_retries looks like from its caller:
Python returns None on every non-exception path (value), or lets an
exception propagate (raised).  artifact marks a run truncated by the
finite model scripts. -/
inductive TransferReturn
  | value
  | raised (e : PyExc)
  | artifact
deriving DecidableEq, Repr

/-- download_with_retries together with its exhaustion escalation
handle_download_failure (lines 132-142).  Each element of scripts is the
attempt script for one invocation of the retry loop; choices is the
stream of valid user answers (true = 's', false = 'n') consumed on
exhaustion.  On 's' the handler calls download_with_retries again with
its default parameters max_attempts=7, wait_time=5, reset_interval=60
and a fresh attempt counter; on 'n' it calls sys.exit(0), modelled as a
propagating SystemExit. -/
def runSessionAux :
    List (List Attempt) → LoopConfig → List Bool → FileState → Globals →
      TransferReturn × FileState × Globals
  | [], _cfg, _choices, fs, g => (.artifact, fs, g)
  | script :: more, cfg, choices, fs, g =>
      match runAttempts cfg script 0 0 cfg.baseWait fs g with
      | (.completed, fs1, g1) => (.value, fs1, g1)
      | (.alreadyComplete, fs1, g1) => (.value, fs1, g1)
      | (.serverRejects, fs1, g1) => (.value, fs1, g1)
      | (.escaped e, fs1, g1) => (.raised e, fs1, g1)
      | (.scriptEnded, fs1, g1) => (.artifact, fs1, g1)
      | (.exhausted, fs1, g1) =>
          match choices with
          | [] => (.artifact, fs1, g1)
          | c :: cs =>
              if c then runSessionAux more ⟨7, 5, 60⟩ cs fs1 g1
              else (.raised (.systemExit 0), fs1, g1)

/-- download_with_progress (lines 145-147): one transfer session started
with the default retry parameters. -/
def download_with_progress (scripts : List (List Attempt)) (choices : List Bool)
    (fs : FileState) (g : Globals) : TransferReturn × FileState × Globals :=
  runSessionAux scripts ⟨7, 5, 60⟩ choices fs g

/-- A pytube Stream object as the sort in list_available_streams sees it:
its filesize attribute and an identity tag.  The class defines no
ordering dunder methods, so Python cannot compare two Stream objects. -/
structure PyStream where
  filesize : Nat
  sid : Nat
deriving DecidableEq, Repr

/-- Key of the primary sort on line 60:
int(x[0].split('p')[0].strip()) applied to the display label; none models
the ValueError raised when the leading piece is not a numeral. -/
def resKey (info : String) : Option Int :=
  pyInt ((splitOnChar 'p' info.data).headD [])

/-- Stable insertion of one element into a list sorted by an integer
key (ascending). -/
def insertByKey (key : String × PyStream → Int) (a : String × PyStream) :
    List (String × PyStream) → List (String × PyStream)
  | [] => [a]
  | b :: bs => if key a ≤ key b then a :: b :: bs else b :: insertByKey key a bs

/-- Stable ascending sort by an integer key, matching the order Python's
stable sort produces for these keys. -/
def sortByKey (key : String × PyStream → Int) :
    List (String × PyStream) → List (String × PyStream)
  | [] => []
  | a :: as => insertByKey key a (sortByKey key as)

/-- The sort step of list_available_streams (lines 58-64).  If every
label's leading piece parses as an integer, the list is sorted by that
numeric key.  Otherwise line 60 raises ValueError before reordering
anything and the except branch runs sorted(available_streams,
key=lambda x: x[1]): its key is the pytube Stream object itself (not its
filesize, despite the comment on line 63), and since Stream defines no
ordering, CPython raises TypeError on the first comparison, i.e. for any
list with at least two entries. -/
def list_available_streams_sort (xs : List (String × PyStream)) :
    Except PyExc (List (String × PyStream)) :=
  if xs.all (fun x => (resKey x.1).isSome) then
    .ok (sortByKey (fun x => (resKey x.1).getD 0) xs)
  else if xs.length ≤ 1 then .ok xs
  else .error .typeError

/-- The codec_map dict on lines 210-214. -/
def codec_map (ext : String) : Option (String × String) :=
  if ext = "mp4" then some ("libx264", "aac")
  else if ext = "webm" then some ("libvpx", "libvorbis")
  else if ext = "mkv" then some ("libx264", "aac")
  else none

/-- The inputs download_video depends on: whether the selected stream has
an embedded audio track, whether an audio-only stream exists, the video
extension from the mime type, whether confirm_download_choice returned a
filename (true) or None (false), the network scripts and user choices
for the video and audio transfers, and the combiner outcome (none =
write_videofile succeeds, some e = it raises e). -/
structure DVInput where
  includesAudio : Bool
  audioAvailable : Bool
  ext : String
  confirmed : Bool
  videoScripts : List (List Attempt)
  videoChoices : List Bool
  audioScripts : List (List Attempt)
  audioChoices : List Bool
  combiner : Option PyExc
deriving DecidableEq, Repr

/-- Observable phases of one download_video call: which transfers were
started, whether the combiner was invoked, and the exception the
function's except clause on line 227 caught and logged, if any. -/
structure DVTrace where
  videoStarted : Bool
  audioStarted : Bool
  mergeInvoked : Bool
  caughtError : Option PyExc
deriving DecidableEq, Repr

/-- Result of download_video at its interface: it returned None, or an
exception propagated out of it, or the model scripts were truncated. -/
inductive DVResult
  | returnedNone
  | escaped (e : PyExc)
  | modelTruncated
deriving DecidableEq, Repr

/-- Trace of a download_video call that returned before starting any
transfer. -/
def emptyTrace : DVTrace := ⟨false, false, false, none⟩

/-- The audio download, codec lookup and merge steps of download_video
(lines 207-226), entered only after the video transfer returned.  A
caught Exception is logged and the function returns None (line 227);
a BaseException propagates. -/
def audioAndMerge (inp : DVInput) (af : FileState) (g : Globals) :
    DVResult × DVTrace × FileState × Globals :=
  match download_with_progress inp.audioScripts inp.audioChoices af g with
  | (.raised e, af1, g1) =>
      if e.isException then (.returnedNone, ⟨true, true, false, some e⟩, af1, g1)
      else (.escaped e, ⟨true, true, false, none⟩, af1, g1)
  | (.artifact, af1, g1) => (.modelTruncated, ⟨true, true, false, none⟩, af1, g1)
  | (.value, af1, g1) =>
      match codec_map inp.ext with
      | none => (.returnedNone, ⟨true, true, false, none⟩, af1, g1)
      | some _ =>
          match inp.combiner with
          | none => (.returnedNone, ⟨true, true, true, none⟩, af1, g1)
          | some e =>
              if e.isException then (.returnedNone, ⟨true, true, true, some e⟩, af1, g1)
              else (.escaped e, ⟨true, true, true, none⟩, af1, g1)

/-- download_video (lines 181-228).  vf is the state of the destination
or temporary video file, af of the audio file.  The whole body sits in a
try whose except clause catches Exception (logging it and returning
None); SystemExit and KeyboardInterrupt pass through it. -/
def download_video (inp : DVInput) (vf af : FileState) (g : Globals) :
    DVResult × DVTrace × FileState × FileState × Globals :=
  if inp.confirmed = false then (.returnedNone, emptyTrace, vf, af, g)
  else if inp.includesAudio then
    match download_with_progress inp.videoScripts inp.videoChoices vf g with
    | (.value, vf1, g1) => (.returnedNone, ⟨true, false, false, none⟩, vf1, af, g1)
    | (.raised e, vf1, g1) =>
        if e.isException then (.returnedNone, ⟨true, false, false, some e⟩, vf1, af, g1)
        else (.escaped e, ⟨true, false, false, none⟩, vf1, af, g1)
    | (.artifact, vf1, g1) => (.modelTruncated, ⟨true, false, false, none⟩, vf1, af, g1)
  else if inp.audioAvailable = false then (.returnedNone, emptyTrace, vf, af, g)
  else
    match download_with_progress inp.videoScripts inp.videoChoices vf g with
    | (.value, vf1, g1) =>
        let am := audioAndMerge inp af g1
        (am.1, am.2.1, vf1, am.2.2.1, am.2.2.2)
    | (.raised e, vf1, g1) =>
        if e.isException then (.returnedNone, ⟨true, false, false, some e⟩, vf1, af, g1)
        else (.escaped e, ⟨true, false, false, none⟩, vf1, af, g1)
    | (.artifact, vf1, g1) => (.modelTruncated, ⟨true, false, false, none⟩, vf1, af, g1)

/-- How the process ends: a SystemExit reaches the interpreter with an
exit code, an exception reaches it uncaught, or main returns normally. -/
inductive FinalStatus
  | normalReturn
  | exitCode (n : Nat)
  | uncaught (e : PyExc)
deriving DecidableEq, Repr

/-- The exception handling and cleanup of main (lines 231-268) around the
download_video call.  KeyboardInterrupt is caught and converted to
sys.exit(0); any other Exception to sys.exit(1); a SystemExit from the
body stays in flight.  The finally block then removes the temporary
files; when removal fails (cleanupOk = false) its except OSError clause
logs and raises a new OSError (line 267), which replaces whatever
exception was in flight and reaches the interpreter uncaught. -/
def mainRun (dv : DVResult) (cleanupOk : Bool) : FinalStatus :=
  let inflight : Option PyExc :=
    match dv with
    | .returnedNone => none
    | .modelTruncated => none
    | .escaped e =>
        match e with
        | .keyboardInterrupt => some (.systemExit 0)
        | .systemExit n => some (.systemExit n)
        | e' => if e'.isException then some (.systemExit 1) else some e'
  if cleanupOk then
    match inflight with
    | none => .normalReturn
    | some (.systemExit n) => .exitCode n
    | some e => .uncaught e
  else .uncaught .osError

/-- An empty destination file state: no file on disk yet, no requests
logged. -/
def fs0 : FileState := ⟨none, []⟩

/-- Fresh process globals: progress_bar unbound, no instrumentation
counts yet. -/
def g0 : Globals := ⟨false, 0, 0, 0⟩

/-- An attempt whose connection drops immediately after the 206 response
arrives and before any payload byte, with the given elapsed span for the
failed attempt: the progress bar is created, nothing is written, and the
ConnectionError handler runs. -/
def midStreamDrop (t : Nat) : Attempt :=
  ⟨.ok 206 (some "bytes 0-9/10") (.interrupted [] .connectionError), t⟩

/-- An attempt that succeeds: a 206 response with a well-formed
content-range header whose whole body (one byte) streams to disk. -/
def okAttempt : Attempt :=
  ⟨.ok 206 (some "bytes 0-9/10") (.complete [1]), 0⟩

/-- A dual-track download in which both transfers succeed on the first
attempt and the combiner raises an error while writing the merged
file. -/
def c8input : DVInput :=
  ⟨false, true, "mp4", true, [[okAttempt]], [], [[okAttempt]], [],
   some (PyExc.other "combiner error")⟩

/-- A dual-track download whose video transfer immediately receives a 403
response; the audio transfer would succeed and the combiner would not
raise. -/
def c3input : DVInput :=
  ⟨false, true, "mp4", true, [[⟨NetResult.ok 403 none (Body.complete []), 0⟩]], [],
   [[okAttempt]], [], none⟩

/-- A progressive (audio included) download whose seven attempts all fail
with mid-stream connection drops, after which the user answers 'n' to the
continue prompt. -/
def c10input : DVInput :=
  ⟨true, false, "mp4", true, [List.replicate 7 (midStreamDrop 0)], [false], [], [], none⟩

/-- A dual-track download whose video transfer exhausts its seven
attempts with mid-stream connection drops, after which the user answers
'n' to the continue prompt. -/
def c10winput : DVInput :=
  ⟨false, true, "mp4", true, [List.replicate 7 (midStreamDrop 0)], [false],
   [[okAttempt]], [], none⟩

/-- The file and offset components of a loop iteration do not depend on
which control branch is taken: the iteration appends exactly the streamed
bytes (when the file was opened) and logs exactly one Range offset, the
current file length. -/
theorem loopStep_fst_state (cfg : LoopConfig) (a : Attempt) (attempt total wait : Nat)
    (fs : FileState) (g : Globals) :
    (loopStep cfg a attempt total wait fs g).2.1
      = { file := if (attemptEval g.pbBound ((fs.file.getD []).length) a.net).opened
                  then some (fs.file.getD []
                      ++ (attemptEval g.pbBound ((fs.file.getD []).length) a.net).written)
                  else fs.file
        , offsets := fs.offsets ++ [(fs.file.getD []).length] } := by
  unfold loopStep
  rcases h : attemptEval g.pbBound ((fs.file.getD []).length) a.net with ⟨out, w, o, p⟩
  rcases out with c | r
  · rcases c <;> simp [h] <;> split <;> try split
    all_goals rfl
  · simp [h]

/-- Each loop iteration leaves the prior bytes of the destination file in
place: the resulting file contents extend the previous contents. -/
theorem loopStep_file_extends (cfg : LoopConfig) (a : Attempt) (attempt total wait : Nat)
    (fs : FileState) (g : Globals) :
    ∃ tl, (loopStep cfg a attempt total wait fs g).2.1.file.getD []
        = fs.file.getD [] ++ tl := by
  rw [loopStep_fst_state]
  by_cases ho : (attemptEval g.pbBound ((fs.file.getD []).length) a.net).opened
  · exact ⟨(attemptEval g.pbBound ((fs.file.getD []).length) a.net).written, by simp [ho]⟩
  · exact ⟨[], by simp [ho]⟩

/-- Each loop iteration records exactly one Range offset: the current
on-disk size at the start of the attempt. -/
theorem loopStep_offsets (cfg : LoopConfig) (a : Attempt) (attempt total wait : Nat)
    (fs : FileState) (g : Globals) :
    (loopStep cfg a attempt total wait fs g).2.1.offsets
      = fs.offsets ++ [(fs.file.getD []).length] := by
  rw [loopStep_fst_state]

/-- Across a whole run of the retry loop the destination file is only
extended (the previous contents stay a prefix), the recorded Range
offsets are only appended to, and when at least one attempt runs, the
first offset recorded is the file size on disk when the run began. -/
theorem runAttempts_extends (cfg : LoopConfig) :
    ∀ (script : List Attempt) (attempt total wait : Nat) (fs : FileState) (g : Globals),
      ∃ tl offs,
        (runAttempts cfg script attempt total wait fs g).2.1.file.getD []
            = fs.file.getD [] ++ tl
        ∧ (runAttempts cfg script attempt total wait fs g).2.1.offsets
            = fs.offsets ++ offs
        ∧ (total < cfg.maxAttempts → script ≠ [] →
            offs.head? = some ((fs.file.getD []).length)) := by
  intro script
  induction script with
  | nil =>
      intro attempt total wait fs g
      refine ⟨[], [], ?_, ?_, fun _ hne => absurd rfl hne⟩ <;>
        by_cases h : total < cfg.maxAttempts <;> simp [runAttempts, h]
  | cons a rest ih =>
      intro attempt total wait fs g
      by_cases h : total < cfg.maxAttempts
      · obtain ⟨w, hw⟩ := loopStep_file_extends cfg a attempt total wait fs g
        have ho := loopStep_offsets cfg a attempt total wait fs g
        rcases hstep : loopStep cfg a attempt total wait fs g with ⟨ctrl, fs1, g1⟩
        rw [hstep] at hw ho
        dsimp only at hw ho
        rcases ctrl with r | ⟨a1, t1, w1⟩
        · refine ⟨w, [(fs.file.getD []).length], ?_, ?_, fun _ _ => rfl⟩ <;>
            simp [runAttempts, h, hstep, hw, ho]
        · obtain ⟨tl2, offs2, h1, h2, _⟩ := ih a1 t1 w1 fs1 g1
          refine ⟨w ++ tl2, (fs.file.getD []).length :: offs2, ?_, ?_, fun _ _ => rfl⟩
          · simp [runAttempts, h, hstep, h1, hw, List.append_assoc]
          · simp [runAttempts, h, hstep, h2, ho, List.append_assoc]
      · exact ⟨[], [], by simp [runAttempts, h], by simp [runAttempts, h],
          fun h' => absurd h' h⟩

/-- A response whose status is neither 200 nor 206 nor 416 makes the loop
return immediately on that attempt: one request is logged, nothing is
written or slept, the remaining script is never consumed. -/
theorem serverReject_step (cfg : LoopConfig) (s : Nat) (hdr : Option String) (body : Body)
    (t : Nat) (rest : List Attempt) (attempt total wait : Nat) (fs : FileState)
    (g : Globals) (h200 : s ≠ 200) (h206 : s ≠ 206) (h416 : s ≠ 416)
    (hT : total < cfg.maxAttempts) :
    runAttempts cfg (⟨NetResult.ok s hdr body, t⟩ :: rest) attempt total wait fs g
      = (RetryResult.serverRejects,
         ⟨fs.file, fs.offsets ++ [(fs.file.getD []).length]⟩,
         ⟨g.pbBound, g.requests + 1, g.resets, g.sleeps⟩) := by
  simp [runAttempts, loopStep, attemptEval, h200, h206, h416, hT]

/-- Once the audio phase of download_video is entered, every one of its
outcomes records that the audio transfer was started. -/
theorem audioAndMerge_audioStarted (inp : DVInput) (af : FileState) (g : Globals) :
    (audioAndMerge inp af g).2.1.audioStarted = true := by
  unfold audioAndMerge
  repeat' split
  all_goals rfl

/-- C1, counterexample.  With max_attempts = 3 and every failing attempt
spanning 100 s > reset_interval = 60 s, the reset branch runs after the
first and the second failure (resets = 2), yet the loop still terminates
in ExhaustedRetries after exactly 3 attempts: the reset zeroes only the
local attempt counter, not the total_attempts counter that bounds the
while loop, so no fresh budget of maxAttempts further attempts exists and
the fourth scripted attempt is never issued. -/
theorem c1_budget_not_refreshed_counterexample :
    (download_with_retries 3 5 60 fs0 g0 (List.replicate 4 (midStreamDrop 100))).1
        = RetryResult.exhausted
    ∧ (download_with_retries 3 5 60 fs0 g0 (List.replicate 4 (midStreamDrop 100))).2.2.resets
        = 2
    ∧ (download_with_retries 3 5 60 fs0 g0 (List.replicate 4 (midStreamDrop 100))).2.2.requests
        = 3 :=
  ⟨rfl, rfl, rfl⟩

/-- C1, amended.  For a connection-class failure that does not exhaust
the budget, when the elapsed span of the failed attempt exceeds the reset
interval, the loop continues with the displayed attempt counter reset to
0 and the wait time restored to the literal 5 seconds (not the configured
base wait), while the total-attempts budget counter keeps its incremented
value, so ExhaustedRetries is still reached after maxAttempts total
failures. -/
theorem c1_reset_keeps_total_budget (cfg : LoopConfig) (attempt total wait : Nat)
    (fs : FileState) (g : Globals) (a : Attempt) (rest : List Attempt)
    (hpb : g.pbBound = true)
    (hnet : a.net = NetResult.raised PyExc.connectionError)
    (hT : total < cfg.maxAttempts) (hT1 : total + 1 < cfg.maxAttempts)
    (hel : a.elapsed > cfg.resetInterval) :
    runAttempts cfg (a :: rest) attempt total wait fs g
      = runAttempts cfg rest 0 (total + 1) 5
          ⟨fs.file, fs.offsets ++ [(fs.file.getD []).length]⟩
          ⟨true, g.requests + 1, g.resets + 1, g.sleeps + 1⟩ := by
  simp [runAttempts, loopStep, attemptEval, failClassOf, hnet, hpb, hT, hT1, hel]

/-- C1, witness for the amended theorem at a concrete input. -/
theorem c1_reset_keeps_total_budget_witness :
    (0 < 3) ∧ (0 + 1 < 3) ∧ (100 > 60)
    ∧ runAttempts ⟨3, 5, 60⟩ [⟨NetResult.raised PyExc.connectionError, 100⟩] 0 0 5
        fs0 ⟨true, 0, 0, 0⟩
      = runAttempts ⟨3, 5, 60⟩ [] 0 1 5 ⟨none, [0]⟩ ⟨true, 1, 1, 1⟩ :=
  ⟨by decide, by decide, by decide,
   c1_reset_keeps_total_budget ⟨3, 5, 60⟩ 0 0 5 fs0 ⟨true, 0, 0, 0⟩
     ⟨NetResult.raised PyExc.connectionError, 100⟩ [] rfl rfl (by decide) (by decide)
     (by decide)⟩

/-- C2.  With max_attempts = 3, wait_time = 1, reset_interval = 100 and
three consecutive immediate failures (each attempt spanning 1 s < 100 s),
the loop makes exactly 3 requests (a fourth scripted attempt is never
issued), sleeps only between attempts (twice), and terminates in
ExhaustedRetries; the escalation then either aborts the program with
SystemExit(0) when the user answers 'n', or, when the user answers 's',
restarts the whole retry loop with fresh counters so that a following
successful attempt completes the transfer with a fourth request. -/
theorem c2_three_attempts_then_escalation :
    (download_with_retries 3 1 100 fs0 g0 (List.replicate 4 (midStreamDrop 1))).1
        = RetryResult.exhausted
    ∧ (download_with_retries 3 1 100 fs0 g0 (List.replicate 4 (midStreamDrop 1))).2.2.requests
        = 3
    ∧ (download_with_retries 3 1 100 fs0 g0 (List.replicate 4 (midStreamDrop 1))).2.2.sleeps
        = 2
    ∧ (runSessionAux [List.replicate 4 (midStreamDrop 1)] ⟨3, 1, 100⟩ [false] fs0 g0).1
        = TransferReturn.raised (PyExc.systemExit 0)
    ∧ (runSessionAux [List.replicate 4 (midStreamDrop 1), [okAttempt]] ⟨3, 1, 100⟩ [true]
        fs0 g0).1 = TransferReturn.value
    ∧ (runSessionAux [List.replicate 4 (midStreamDrop 1), [okAttempt]] ⟨3, 1, 100⟩ [true]
        fs0 g0).2.2.requests = 4 :=
  ⟨rfl, rfl, rfl, rfl, rfl, rfl⟩

/-- C3, counterexample.  A dual-track download whose video fetch receives
status 403 returns None exactly as a successful call would (no fatal
error is surfaced to the caller), and the companion audio transfer and
the merge step are both still attempted. -/
theorem c3_counterexample :
    (download_video c3input fs0 fs0 g0).1 = DVResult.returnedNone
    ∧ (download_video c3input fs0 fs0 g0).2.1.audioStarted = true
    ∧ (download_video c3input fs0 fs0 g0).2.1.mergeInvoked = true :=
  ⟨rfl, rfl, rfl⟩

/-- C3, amended.  A response with a status other than 200, 206 and 416
terminates the retry loop immediately, with no retry, no sleep and no
write; but the failure is only logged: download_with_retries returns
normally (None), and the caller download_video proceeds to start the
companion audio transfer. -/
theorem c3_server_reject_silent (cfg : LoopConfig) (s : Nat) (hdr : Option String)
    (body : Body) (t : Nat) (attempt total wait : Nat) (fs : FileState) (g : Globals)
    (rest : List Attempt) (ext : String) (aScripts : List (List Attempt))
    (aChoices : List Bool) (comb : Option PyExc) (vf af : FileState) (g2 : Globals)
    (h200 : s ≠ 200) (h206 : s ≠ 206) (h416 : s ≠ 416) (hT : total < cfg.maxAttempts) :
    runAttempts cfg (⟨NetResult.ok s hdr body, t⟩ :: rest) attempt total wait fs g
      = (RetryResult.serverRejects,
         ⟨fs.file, fs.offsets ++ [(fs.file.getD []).length]⟩,
         ⟨g.pbBound, g.requests + 1, g.resets, g.sleeps⟩)
    ∧ (download_video ⟨false, true, ext, true, [[⟨NetResult.ok s hdr body, t⟩]], [],
          aScripts, aChoices, comb⟩ vf af g2).2.1.audioStarted = true := by
  constructor
  · exact serverReject_step cfg s hdr body t rest attempt total wait fs g h200 h206 h416 hT
  · have h1 := serverReject_step ⟨7, 5, 60⟩ s hdr body t [] 0 0 5 vf g2 h200 h206 h416
      (by decide)
    simp [download_video, download_with_progress, runSessionAux, h1,
      audioAndMerge_audioStarted]

/-- C3, witness for the amended theorem at status 403. -/
theorem c3_server_reject_silent_witness :
    (403 ≠ 200) ∧ (403 ≠ 206) ∧ (403 ≠ 416) ∧ (0 < 7)
    ∧ (runAttempts ⟨7, 5, 60⟩ [⟨NetResult.ok 403 none (Body.complete []), 0⟩] 0 0 5 fs0 g0
        = (RetryResult.serverRejects, ⟨none, [0]⟩, ⟨false, 1, 0, 0⟩)
      ∧ (download_video ⟨false, true, "mp4", true,
            [[⟨NetResult.ok 403 none (Body.complete []), 0⟩]], [], [[okAttempt]], [], none⟩
            fs0 fs0 g0).2.1.audioStarted = true) :=
  ⟨by decide, by decide, by decide, by decide,
   c3_server_reject_silent ⟨7, 5, 60⟩ 403 none (Body.complete []) 0 0 0 5 fs0 g0 [] "mp4"
     [[okAttempt]] [] none fs0 fs0 g0 (by decide) (by decide) (by decide) (by decide)⟩

/-- C4.  When every display label parses, the list is sorted by the
numeric resolution ascending; but when one label (here "bad ...") does
not parse, the fallback sort does not order the whole list by raw file
size: its key is the stream object itself, which pytube Stream objects
cannot be compared by, so the fallback raises TypeError for any list with
at least two entries (the code's own comment on line 63 says it sorts by
file size). -/
theorem c4_sort_fallback_not_by_filesize :
    list_available_streams_sort
        [("1080p - 2.00 GB - mp4", ⟨2000, 1⟩), ("720p - 1.00 GB - mp4", ⟨1000, 2⟩)]
      = Except.ok
          [("720p - 1.00 GB - mp4", ⟨1000, 2⟩), ("1080p - 2.00 GB - mp4", ⟨2000, 1⟩)]
    ∧ list_available_streams_sort
        [("1080p - 2.00 GB - mp4", ⟨2000, 1⟩), ("bad - 500.00 B - mp4", ⟨500, 2⟩),
         ("720p - 1.00 GB - mp4", ⟨1000, 3⟩)]
      = Except.error PyExc.typeError :=
  ⟨rfl, rfl⟩

/-- C5.  Computing the total expected size is not a total operation: with
a present well-formed content-range header the total is parsed, but when
the header is missing the fallback default string "bytes <offset>-0"
contains no '/' so the very computation meant as the fallback raises
IndexError (same for a malformed header without '/'); inside the loop
this exception is caught by the generic except clause and consumes one
retry attempt, as the final run shows (two requests and one backoff sleep
for a 200 response without the header followed by one with it). -/
theorem c5_content_range_fallback_raises :
    content_range_total (some "bytes 100-999/1000") 100 = Except.ok 1000
    ∧ content_range_total none 100 = Except.error PyExc.indexError
    ∧ content_range_total (some "bytes 0-99") 0 = Except.error PyExc.indexError
    ∧ download_with_retries 7 5 60 fs0 ⟨true, 0, 0, 0⟩
        [⟨NetResult.ok 200 none (Body.complete [1]), 0⟩,
         ⟨NetResult.ok 200 (some "bytes 0-1/2") (Body.complete [5, 6]), 0⟩]
      = (RetryResult.completed, ⟨some [5, 6], [0, 0]⟩, ⟨true, 2, 0, 1⟩) :=
  ⟨rfl, rfl, rfl, rfl⟩

/-- C6, counterexample.  Invoking the transfer again on a complete file
does not perform zero network requests: one ranged GET is issued (and
answered 416) before the loop returns, though no bytes are written and
the file is unchanged. -/
theorem c6_counterexample :
    (download_with_retries 7 5 60 ⟨some [1, 2, 3], []⟩ g0
        [⟨NetResult.ok 416 none (Body.complete []), 0⟩, okAttempt]).1
      = RetryResult.alreadyComplete
    ∧ (download_with_retries 7 5 60 ⟨some [1, 2, 3], []⟩ g0
        [⟨NetResult.ok 416 none (Body.complete []), 0⟩, okAttempt]).2.2.requests = 1
    ∧ ¬ (download_with_retries 7 5 60 ⟨some [1, 2, 3], []⟩ g0
        [⟨NetResult.ok 416 none (Body.complete []), 0⟩, okAttempt]).2.2.requests = 0
    ∧ (download_with_retries 7 5 60 ⟨some [1, 2, 3], []⟩ g0
        [⟨NetResult.ok 416 none (Body.complete []), 0⟩, okAttempt]).2.1.file
      = some [1, 2, 3] :=
  ⟨rfl, rfl, by decide, rfl⟩

/-- C6, amended.  A 416 answer to the range probe terminates the loop as
AlreadyComplete after exactly one network request: no byte is written,
the destination file and progress-bar state are unchanged, no sleep or
reset happens, and the remaining script is never consumed. -/
theorem c6_already_complete_one_request (cfg : LoopConfig) (hdr : Option String)
    (body : Body) (t : Nat) (rest : List Attempt) (attempt total wait : Nat)
    (fs : FileState) (g : Globals) (hT : total < cfg.maxAttempts) :
    runAttempts cfg (⟨NetResult.ok 416 hdr body, t⟩ :: rest) attempt total wait fs g
      = (RetryResult.alreadyComplete,
         ⟨fs.file, fs.offsets ++ [(fs.file.getD []).length]⟩,
         ⟨g.pbBound, g.requests + 1, g.resets, g.sleeps⟩) := by
  simp [runAttempts, loopStep, attemptEval, hT]

/-- C6, witness for the amended theorem at a concrete complete file. -/
theorem c6_already_complete_one_request_witness :
    (0 < 7)
    ∧ runAttempts ⟨7, 5, 60⟩ [⟨NetResult.ok 416 none (Body.complete []), 0⟩, okAttempt]
        0 0 5 ⟨some [1, 2, 3], []⟩ g0
      = (RetryResult.alreadyComplete, ⟨some [1, 2, 3], [3]⟩, ⟨false, 1, 0, 0⟩) :=
  ⟨by decide,
   c6_already_complete_one_request ⟨7, 5, 60⟩ none (Body.complete []) 0 [okAttempt]
     0 0 5 ⟨some [1, 2, 3], []⟩ g0 (by decide)⟩

/-- C7.  In a fresh process, a ConnectionError raised by requests.get on
the very first attempt reaches a handler whose first statement closes the
still-unbound global progress_bar: the resulting NameError is caught by
neither except clause and propagates out of the retry loop after a single
request, with no retry and no sleep; the caller download_video then
catches and logs it, so the transfer is abandoned instead of retried. -/
theorem c7_first_attempt_failure_escapes :
    runAttempts ⟨7, 5, 60⟩ [⟨NetResult.raised PyExc.connectionError, 0⟩] 0 0 5 fs0 g0
      = (RetryResult.escaped PyExc.nameError, ⟨none, [0]⟩, ⟨false, 1, 0, 0⟩)
    ∧ (download_video ⟨true, false, "mp4", true,
          [[⟨NetResult.raised PyExc.connectionError, 0⟩]], [], [], [], none⟩
          fs0 fs0 g0).2.1.caughtError = some PyExc.nameError :=
  ⟨rfl, rfl⟩

/-- C8, counterexample.  A run in which the combiner raised an error
(caught and logged inside download_video) and the temporary-file cleanup
also fails ends with the re-raised cleanup OSError as the process's final
surfaced status, not the combiner error. -/
theorem c8_counterexample :
    (download_video c8input fs0 fs0 g0).2.1.caughtError
        = some (PyExc.other "combiner error")
    ∧ mainRun (download_video c8input fs0 fs0 g0).1 false
        = FinalStatus.uncaught PyExc.osError
    ∧ ¬ mainRun (download_video c8input fs0 fs0 g0).1 false
        = FinalStatus.uncaught (PyExc.other "combiner error") :=
  ⟨rfl, rfl, by decide⟩

/-- C8, amended.  When removing the temporary files fails, the except
OSError clause in main's finally block logs the failure and re-raises a
new OSError, which becomes the operation's final surfaced status whatever
the download did before - it replaces any in-flight exception, and prior
transfer or combiner errors, which were only logged inside
download_video, never remain the final status. -/
theorem c8_cleanup_error_becomes_final_status (dv : DVResult) :
    mainRun dv false = FinalStatus.uncaught PyExc.osError := by
  cases dv <;> rfl

/-- C9.  Across every run of the retry loop, whatever the script, the
destination file is only appended to - the bytes previously on disk stay
an unchanged prefix, so nothing is truncated or overwritten - and when at
least one attempt runs, the first Range offset requested equals the
file's current on-disk size (0 when the file is absent); each later
attempt recomputes its offset from the then-current size the same way. -/
theorem c9_resume_invariant (cfg : LoopConfig) (script : List Attempt)
    (attempt total wait : Nat) (fs : FileState) (g : Globals)
    (hT : total < cfg.maxAttempts) (hs : script ≠ []) :
    ∃ tl offs,
      (runAttempts cfg script attempt total wait fs g).2.1.file.getD []
          = fs.file.getD [] ++ tl
      ∧ (runAttempts cfg script attempt total wait fs g).2.1.offsets
          = fs.offsets ++ offs
      ∧ offs.head? = some ((fs.file.getD []).length) := by
  obtain ⟨tl, offs, h1, h2, h3⟩ := runAttempts_extends cfg script attempt total wait fs g
  exact ⟨tl, offs, h1, h2, h3 hT hs⟩

/-- C9, witness at a concrete resumed transfer: one byte already on disk,
one recorded prior offset. -/
theorem c9_resume_invariant_witness :
    (0 < 7) ∧ ([okAttempt] ≠ ([] : List Attempt))
    ∧ ∃ tl offs,
        (runAttempts ⟨7, 5, 60⟩ [okAttempt] 0 0 5 ⟨some [9], [7]⟩ g0).2.1.file.getD []
            = [9] ++ tl
        ∧ (runAttempts ⟨7, 5, 60⟩ [okAttempt] 0 0 5 ⟨some [9], [7]⟩ g0).2.1.offsets
            = [7] ++ offs
        ∧ offs.head? = some 1 :=
  ⟨by decide, by simp,
   c9_resume_invariant ⟨7, 5, 60⟩ [okAttempt] 0 0 5 ⟨some [9], [7]⟩ g0 (by decide)
     (by simp)⟩

/-- C10, counterexample.  download_video can raise: when the retry budget
is exhausted and the user answers 'n', handle_download_failure calls
sys.exit(0) and the resulting SystemExit passes through download_video's
except Exception clause, so the call does not return None. -/
theorem c10_counterexample :
    (download_video c10input fs0 fs0 g0).1 = DVResult.escaped (PyExc.systemExit 0)
    ∧ ¬ (download_video c10input fs0 fs0 g0).1 = DVResult.returnedNone :=
  ⟨rfl, by decide⟩

/-- C10, amended.  download_video lets no Exception-class error escape:
every transfer, combiner or other Exception is caught, logged and turned
into a None return; the only exceptions that can propagate out of it are
BaseExceptions (the SystemExit of a user abort, or a KeyboardInterrupt),
which its except Exception clause does not catch. -/
theorem c10_only_base_exceptions_escape (inp : DVInput) (vf af : FileState)
    (g : Globals) (e : PyExc)
    (h : (download_video inp vf af g).1 = DVResult.escaped e) :
    e.isException = false := by
  unfold download_video audioAndMerge at h
  repeat' split at h
  all_goals simp_all

/-- C10, witness: the amended theorem applied to a concrete aborted
dual-track download whose escaping exception is SystemExit(0). -/
theorem c10_only_base_exceptions_escape_witness :
    (download_video c10winput fs0 fs0 g0).1 = DVResult.escaped (PyExc.systemExit 0)
    ∧ PyExc.isException (PyExc.systemExit 0) = false :=
  ⟨rfl, c10_only_base_exceptions_escape c10winput fs0 fs0 g0 (PyExc.systemExit 0) rfl⟩
